import Mathlib

/-!
Shallow embedding of the go-xserver gateway routing core
(`services/internal/utility/send_msg.go` together with the gateway
component in the same source file): the command-namespace codec, the
session affinity table (`Gateway.allocServers`), the authentication
bootstrap (`VerifyToken`), logout handling (`OnLogout`), the relay
dispatcher (`OnRecvFromClient`) and the client send facade
(`SendMsgToClient`, `SendMsgToClientByRoleName`).

External collaborators (token store, node registry, transport codec,
`utility.ServerID2NodeID`) are kept abstract, passed in as explicit
parameters, exactly at the interface boundary the code uses them.
-/

namespace GoXServer

/-- Account identifier (Go `string`). -/
abbrev Account := String

/-- Service / node type (`common.NodeType`, a small non-negative integer). -/
abbrev ServiceType := Nat

/-- Raw server identifier as stored in the token record (input of
`utility.ServerID2NodeID`). -/
abbrev ServerID := Nat

/-- Node identifier (`common.NodeID`), kept abstract as a number. -/
abbrev NodeID := Nat

/-- A live backend node handle (`common.INode`), kept abstract. -/
abbrev Node := Nat

/-- An application-level message value (`proto.Message`), kept abstract. -/
abbrev ProtoMsg := Nat

/-- The configuration fields the routing core reads
(`gw.ctx.Config.Common.MsgCmdOffset`). -/
structure Config where
  MsgCmdOffset : Nat

/-- The `uint32(gw.ctx.Config.Common.MsgCmdOffset)` cast performed at both
use sites in `OnRecvFromClient`. -/
def msgOffset (cfg : Config) : Nat := cfg.MsgCmdOffset % 2 ^ 32

/-- Modelled from the spec: `common.Gateway` (the gateway's own reserved node
type) and `common.NodeTypeSize` (one past the maximum valid node type) are
enumeration constants defined outside the given source file; they are kept
abstract here. -/
structure NodeTypeConsts where
  gatewayType : Nat
  nodeTypeSize : Nat

/-- The relay envelope `protocol.MSG_GW_RELAY_CLIENT_MSG`: account, local
command, and the original payload bytes. -/
structure MSG_GW_RELAY_CLIENT_MSG where
  Account : String
  CMD : Nat
  Data : List Nat
  deriving DecidableEq

/-- Modelled from the spec: `protocol.CMD_GW_RELAY_CLIENT_MSG`, the fixed
reserved internal relay command code, defined outside the given source file;
only its fixedness matters here. -/
def CMD_GW_RELAY_CLIENT_MSG : Nat := 1

/-- The external node registry and send capability used by the dispatcher:
`gw.GetNode`, `gw.GetNodeOne` and `target.SendMsg`. -/
structure Env where
  getNode : NodeID → Option Node
  getNodeOne : ServiceType → Option Node
  sendMsg : Node → Nat → MSG_GW_RELAY_CLIENT_MSG → Bool

/-- The mutable gateway state: the session affinity table
`gw.allocServers : map[string]map[uint32]common.NodeID`. -/
structure Gateway where
  allocServers : Account → Option (ServiceType → Option NodeID)

/-- The fields of the persisted token record that `VerifyToken` consumes:
the stored credential and the allocation list (`GetAllocServers()`). -/
structure TokenRecord where
  Token : String
  AllocServers : List (ServiceType × ServerID)

/-- Outcome of `tokenObj.Load()` from the external token store. -/
inductive LoadResult where
  | ok (rec : TokenRecord)
  | err

/-- The per-account allocation map built by `VerifyToken`'s
`for k, v := range tmpTokenObj.GetAllocServers()` loop, converting each raw
server id with `ServerID2NodeID` (abstract parameter `s2n`). -/
def buildAlloc (s2n : ServerID → NodeID) (l : List (ServiceType × ServerID)) :
    ServiceType → Option NodeID :=
  l.foldl (fun m kv => fun k => if k = kv.1 then some (s2n kv.2) else m k)
    (fun _ => none)

/-- `Gateway.VerifyToken`: returns the result code (0 success, 1 credential
mismatch, 2 store failure) and the new gateway state. The token-store load is
passed in as `load`. -/
def VerifyToken (s2n : ServerID → NodeID) (load : LoadResult) (gw : Gateway)
    (account token : String) : Nat × Gateway :=
  match load with
  | LoadResult.err => (2, gw)
  | LoadResult.ok rec =>
    if token = rec.Token then
      (0, { allocServers := fun a =>
              if a = account then some (buildAlloc s2n rec.AllocServers)
              else gw.allocServers a })
    else (1, gw)

/-- `Gateway.OnLogout`: `delete(gw.allocServers, account)`. -/
def OnLogout (gw : Gateway) (account : String) : Gateway :=
  { allocServers := fun a => if a = account then none else gw.allocServers a }

/-- Affinity lookup as performed by the relay dispatcher: absent when either
the account has no entry at all or the entry has no assignment for the type. -/
def lookupAffinity (gw : Gateway) (account : String) (t : ServiceType) :
    Option NodeID :=
  match gw.allocServers account with
  | none => none
  | some v => v t

/-- Target selection in `OnRecvFromClient`: a sticky node id goes through
`GetNode`, otherwise any live node of the type via `GetNodeOne`. -/
def resolveTarget (env : Env) (v : ServiceType → Option NodeID)
    (nodeType : ServiceType) : Option Node :=
  match v nodeType with
  | some id => env.getNode id
  | none => env.getNodeOne nodeType

/-- Observable outcome of one `OnRecvFromClient` call: the returned `done`
flag, the send attempted on the resolved target (if any), and the boolean the
external send returned. -/
structure RecvResult where
  done : Bool
  sent : Option (Node × Nat × MSG_GW_RELAY_CLIENT_MSG)
  sendOk : Bool
  deriving DecidableEq

/-- `Gateway.OnRecvFromClient`: decode the node type, validate the range,
resolve the target (sticky first, fallback to any live node only when the
account entry exists but has no assignment), then relay the envelope. `done`
is set only after a target has been found, and stays true even when the send
fails. -/
def OnRecvFromClient (C : NodeTypeConsts) (cfg : Config) (env : Env)
    (gw : Gateway) (account : String) (cmd : Nat) (data : List Nat) :
    RecvResult :=
  if C.nodeTypeSize ≤ cmd / msgOffset cfg ∨ cmd / msgOffset cfg ≤ C.gatewayType
  then ⟨false, none, false⟩
  else
    match gw.allocServers account with
    | none => ⟨false, none, false⟩
    | some v =>
      match resolveTarget env v (cmd / msgOffset cfg) with
      | none => ⟨false, none, false⟩
      | some t =>
        ⟨true,
         some (t, CMD_GW_RELAY_CLIENT_MSG,
               ⟨account, cmd % msgOffset cfg, data⟩),
         env.sendMsg t CMD_GW_RELAY_CLIENT_MSG
           ⟨account, cmd % msgOffset cfg, data⟩⟩

/-- Command namespace decode, as performed by the dispatcher:
`nodeType := cmd / OFFSET`, `localCmd := cmd % OFFSET`. -/
def decodeCmd (offset cmd : Nat) : Nat × Nat := (cmd / offset, cmd % offset)

/-- Modelled from the spec: `encode(serviceType, localCmd) = serviceType *
OFFSET + localCmd`; no encoder appears in the given source file. -/
def encodeCmd (offset serviceType localCmd : Nat) : Nat :=
  serviceType * offset + localCmd

/-- Outcome of the client send facade (Go `(bool, error)`): encode failure,
transport failure (the error message carries account and cmd), or success. -/
inductive SendOutcome where
  | encodeFailed
  | sendFailed (account : String) (cmd : Nat)
  | ok
  deriving DecidableEq

/-- The external capabilities the send facade delegates to: `gotcp.Encode`
(returning encoded bytes and a trailing flag byte, or an error) and
`ctx.Node.SendMsgToClient`. -/
structure SendCtx where
  encode : Nat → ProtoMsg → Option (List Nat × Nat)
  nodeSendToClient : String → Nat → List Nat → Bool

/-- `utility.SendMsgToClient`: encode, append the flag byte, send. -/
def SendMsgToClient (ctx : SendCtx) (account : String) (cmd : Nat)
    (msg : ProtoMsg) : SendOutcome :=
  match ctx.encode cmd msg with
  | none => SendOutcome.encodeFailed
  | some (data, flag) =>
    if ctx.nodeSendToClient account cmd (data ++ [flag]) then SendOutcome.ok
    else SendOutcome.sendFailed account cmd

/-- `utility.SendMsgToClientByRoleName`: the role-name lookup is an
unimplemented stub (`account := ""` with a TODO), so it delegates with the
empty account. -/
def SendMsgToClientByRoleName (ctx : SendCtx) (roleName : String) (cmd : Nat)
    (msg : ProtoMsg) : SendOutcome :=
  SendMsgToClient ctx "" cmd msg

/-- Claim C4 (confirmed): decoding the encoded command yields back exactly
the service type and local command whenever `localCmd < OFFSET`. -/
theorem decode_encode_roundtrip (offset serviceType localCmd : Nat)
    (h : localCmd < offset) :
    decodeCmd offset (encodeCmd offset serviceType localCmd)
      = (serviceType, localCmd) := by
  have hpos : 0 < offset := Nat.lt_of_le_of_lt (Nat.zero_le _) h
  simp only [decodeCmd, encodeCmd, Prod.mk.injEq]
  constructor
  · rw [Nat.mul_comm serviceType offset, Nat.mul_add_div hpos,
      Nat.div_eq_of_lt h, Nat.add_zero]
  · rw [Nat.mul_comm serviceType offset, Nat.mul_add_mod, Nat.mod_eq_of_lt h]

/-- Claim C4 witness: the spec's own scenario, `OFFSET = 1000`,
`encode(2, 1) = 2001`, decoding back to `(2, 1)`. -/
theorem decode_encode_roundtrip_witness :
    1 < 1000 ∧ decodeCmd 1000 (encodeCmd 1000 2 1) = (2, 1) :=
  ⟨by decide, decode_encode_roundtrip 1000 2 1 (by decide)⟩

/-- Claim C7 counterexample: the claim's "exactly when" fails. With
`OFFSET = 1000`, reserved type 1, size 10, command 2001 decodes to the valid
service type 2, yet the message is dropped (nothing forwarded, `done = false`)
because the account has no affinity entry and so lookup errors out. -/
theorem recv_drop_despite_valid_type :
    ¬ (10 ≤ 2001 / msgOffset ⟨1000⟩ ∨ 2001 / msgOffset ⟨1000⟩ ≤ 1)
    ∧ OnRecvFromClient ⟨1, 10⟩ ⟨1000⟩
        ⟨fun _ => none, fun _ => none, fun _ _ _ => true⟩
        ⟨fun _ => none⟩ "bob" 2001 [] = ⟨false, none, false⟩ := by
  decide

/-- Claim C7 as amended: whenever the decoded service type is less than or
equal to the gateway's reserved type or greater than or equal to the maximum
valid service type, the message is dropped: nothing is forwarded and the call
returns false (non-fatally). The converse direction does not hold: a message
with a valid service type can still be dropped on a routing miss. -/
theorem recv_drops_invalid_type (C : NodeTypeConsts) (cfg : Config)
    (env : Env) (gw : Gateway) (account : String) (cmd : Nat)
    (data : List Nat) (hOffset : 0 < msgOffset cfg)
    (h : C.nodeTypeSize ≤ cmd / msgOffset cfg
         ∨ cmd / msgOffset cfg ≤ C.gatewayType) :
    OnRecvFromClient C cfg env gw account cmd data = ⟨false, none, false⟩ := by
  simp [OnRecvFromClient, h]

/-- Claim C7 witness: command 500 decodes to service type 0, which is the
reserved gateway type (here 1 bounds it from above), so the message is
dropped. -/
theorem recv_drops_invalid_type_witness :
    0 < msgOffset ⟨1000⟩
    ∧ (10 ≤ 500 / msgOffset ⟨1000⟩ ∨ 500 / msgOffset ⟨1000⟩ ≤ 1)
    ∧ OnRecvFromClient ⟨1, 10⟩ ⟨1000⟩
        ⟨fun _ => some 3, fun _ => some 3, fun _ _ _ => true⟩
        ⟨fun _ => some (fun _ => some 5)⟩ "bob" 500 [] = ⟨false, none, false⟩ :=
  ⟨by decide, by decide,
    recv_drops_invalid_type ⟨1, 10⟩ ⟨1000⟩
      ⟨fun _ => some 3, fun _ => some 3, fun _ _ _ => true⟩
      ⟨fun _ => some (fun _ => some 5)⟩ "bob" 500 [] (by decide) (by decide)⟩

/-- Claim C1 counterexample: with a valid service type (2, between reserved
type 1 and size 10), an existing account entry with no sticky assignment, and
a registry with no live node of that type, target resolution fails and
`OnRecvFromClient` returns false — the claim's "returns true even if target
resolution fails" is wrong. -/
theorem recv_false_when_resolution_fails :
    ¬ (10 ≤ 2001 / msgOffset ⟨1000⟩ ∨ 2001 / msgOffset ⟨1000⟩ ≤ 1)
    ∧ (OnRecvFromClient ⟨1, 10⟩ ⟨1000⟩
        ⟨fun _ => none, fun _ => none, fun _ _ _ => true⟩
        ⟨fun _ => some (fun _ => none)⟩ "alice" 2001 []).done = false := by
  decide

/-- Claim C1 as amended: once validation passes, the account has an affinity
entry, and target resolution succeeds, `OnRecvFromClient` returns true — even
if the subsequent send fails (`env.sendMsg` is unconstrained); when target
resolution fails it returns false instead. -/
theorem recv_done_of_resolved (C : NodeTypeConsts) (cfg : Config) (env : Env)
    (gw : Gateway) (account : String) (cmd : Nat) (data : List Nat)
    (v : ServiceType → Option NodeID)
    (hValid : ¬ (C.nodeTypeSize ≤ cmd / msgOffset cfg
                 ∨ cmd / msgOffset cfg ≤ C.gatewayType))
    (hAcc : gw.allocServers account = some v)
    (hTarget : (resolveTarget env v (cmd / msgOffset cfg)).isSome = true) :
    (OnRecvFromClient C cfg env gw account cmd data).done = true := by
  obtain ⟨t, ht⟩ := Option.isSome_iff_exists.mp hTarget
  simp [OnRecvFromClient, hValid, hAcc, ht]

/-- Claim C1 witness: a resolvable sticky target with a send capability that
always fails still yields `done = true`. -/
theorem recv_done_of_resolved_witness :
    (OnRecvFromClient ⟨1, 10⟩ ⟨1000⟩
      ⟨fun _ => some 3, fun _ => none, fun _ _ _ => false⟩
      ⟨fun _ => some (fun _ => some 5)⟩ "carol" 2001 []).done = true :=
  recv_done_of_resolved ⟨1, 10⟩ ⟨1000⟩
    ⟨fun _ => some 3, fun _ => none, fun _ _ _ => false⟩
    ⟨fun _ => some (fun _ => some 5)⟩ "carol" 2001 [] (fun _ => some 5)
    (by decide) rfl rfl

/-- Claim C2 (confirmed): for a relayed message with a valid service type,
(a) an account with no affinity entry at all causes the message to be dropped
(error path, no fallback, regardless of what the registry would offer), while
(b) an account entry with no assignment for the decoded type falls back to the
registry's choice of a live node of that type. -/
theorem recv_unknown_account_vs_fallback (C : NodeTypeConsts) (cfg : Config)
    (env : Env) (gw : Gateway) (account : String) (cmd : Nat)
    (data : List Nat)
    (hValid : ¬ (C.nodeTypeSize ≤ cmd / msgOffset cfg
                 ∨ cmd / msgOffset cfg ≤ C.gatewayType)) :
    (gw.allocServers account = none →
      OnRecvFromClient C cfg env gw account cmd data = ⟨false, none, false⟩)
    ∧ (∀ v t, gw.allocServers account = some v →
        v (cmd / msgOffset cfg) = none →
        env.getNodeOne (cmd / msgOffset cfg) = some t →
        (OnRecvFromClient C cfg env gw account cmd data).sent
          = some (t, CMD_GW_RELAY_CLIENT_MSG,
                  ⟨account, cmd % msgOffset cfg, data⟩)
        ∧ (OnRecvFromClient C cfg env gw account cmd data).done = true) := by
  constructor
  · intro hAcc
    simp [OnRecvFromClient, hValid, hAcc]
  · intro v t hAcc hNo hOne
    simp [OnRecvFromClient, resolveTarget, hValid, hAcc, hNo, hOne]

/-- Claim C2 witness: an unknown account is dropped even though the registry
has a live node of the type; a known account without an assignment for type 2
is routed to the registry's node 7. -/
theorem recv_unknown_account_vs_fallback_witness :
    OnRecvFromClient ⟨1, 10⟩ ⟨1000⟩
      ⟨fun _ => none, fun _ => some 7, fun _ _ _ => true⟩
      ⟨fun _ => none⟩ "dave" 2001 [] = ⟨false, none, false⟩
    ∧ (OnRecvFromClient ⟨1, 10⟩ ⟨1000⟩
        ⟨fun _ => none, fun _ => some 7, fun _ _ _ => true⟩
        ⟨fun _ => some (fun _ => none)⟩ "erin" 2001 [2, 3]).sent
      = some (7, CMD_GW_RELAY_CLIENT_MSG, ⟨"erin", 1, [2, 3]⟩) := by
  refine ⟨(recv_unknown_account_vs_fallback ⟨1, 10⟩ ⟨1000⟩
      ⟨fun _ => none, fun _ => some 7, fun _ _ _ => true⟩
      ⟨fun _ => none⟩ "dave" 2001 [] (by decide)).1 rfl,
    ((recv_unknown_account_vs_fallback ⟨1, 10⟩ ⟨1000⟩
      ⟨fun _ => none, fun _ => some 7, fun _ _ _ => true⟩
      ⟨fun _ => some (fun _ => none)⟩ "erin" 2001 [2, 3] (by decide)).2
      (fun _ => none) 7 rfl rfl rfl).1⟩

/-- Claim C9 (confirmed): a sticky assignment whose node the registry does not
report live (`GetNode` returns nothing) drops the message and returns false;
there is no fallback to `GetNodeOne`, whatever it would return. -/
theorem recv_dead_sticky_drops (C : NodeTypeConsts) (cfg : Config) (env : Env)
    (gw : Gateway) (account : String) (cmd : Nat) (data : List Nat)
    (v : ServiceType → Option NodeID) (N : NodeID)
    (hValid : ¬ (C.nodeTypeSize ≤ cmd / msgOffset cfg
                 ∨ cmd / msgOffset cfg ≤ C.gatewayType))
    (hAcc : gw.allocServers account = some v)
    (hSticky : v (cmd / msgOffset cfg) = some N)
    (hDead : env.getNode N = none) :
    OnRecvFromClient C cfg env gw account cmd data = ⟨false, none, false⟩ := by
  simp [OnRecvFromClient, resolveTarget, hValid, hAcc, hSticky, hDead]

/-- Claim C9 witness: account "fred" is pinned to node 5 for type 2; node 5 is
not live, yet the registry would offer node 9 — the message is still dropped. -/
theorem recv_dead_sticky_drops_witness :
    OnRecvFromClient ⟨1, 10⟩ ⟨1000⟩
      ⟨fun _ => none, fun _ => some 9, fun _ _ _ => true⟩
      ⟨fun _ => some (fun _ => some 5)⟩ "fred" 2001 [] = ⟨false, none, false⟩ :=
  recv_dead_sticky_drops ⟨1, 10⟩ ⟨1000⟩
    ⟨fun _ => none, fun _ => some 9, fun _ _ _ => true⟩
    ⟨fun _ => some (fun _ => some 5)⟩ "fred" 2001 [] (fun _ => some 5) 5
    (by decide) rfl rfl rfl

/-- Claim C8 (confirmed): whatever send `OnRecvFromClient` attempts carries
the reserved internal relay command code, and its envelope holds exactly the
input account, the original wire command modulo the offset, and the payload
bytes unchanged. -/
theorem recv_envelope_exact (C : NodeTypeConsts) (cfg : Config) (env : Env)
    (gw : Gateway) (account : String) (cmd : Nat) (data : List Nat)
    (t : Node) (c : Nat) (m : MSG_GW_RELAY_CLIENT_MSG)
    (h : (OnRecvFromClient C cfg env gw account cmd data).sent
          = some (t, c, m)) :
    c = CMD_GW_RELAY_CLIENT_MSG ∧ m.Account = account
    ∧ m.CMD = cmd % msgOffset cfg ∧ m.Data = data := by
  unfold OnRecvFromClient at h
  split at h
  · exact absurd h (by simp)
  · split at h
    · exact absurd h (by simp)
    · split at h
      · exact absurd h (by simp)
      · simp only [RecvResult.sent, Option.some.injEq, Prod.mk.injEq] at h
        obtain ⟨-, hc, hm⟩ := h
        subst hc
        subst hm
        exact ⟨rfl, rfl, rfl, rfl⟩

/-- Claim C8 witness: a sticky route for "frank" sends the envelope
`(account = "frank", localCmd = 1, data = [9, 8])` under the relay command. -/
theorem recv_envelope_exact_witness :
    CMD_GW_RELAY_CLIENT_MSG = CMD_GW_RELAY_CLIENT_MSG
    ∧ (MSG_GW_RELAY_CLIENT_MSG.mk "frank" 1 [9, 8]).Account = "frank"
    ∧ (MSG_GW_RELAY_CLIENT_MSG.mk "frank" 1 [9, 8]).CMD
        = 2001 % msgOffset ⟨1000⟩
    ∧ (MSG_GW_RELAY_CLIENT_MSG.mk "frank" 1 [9, 8]).Data = [9, 8] :=
  recv_envelope_exact ⟨1, 10⟩ ⟨1000⟩
    ⟨fun _ => some 3, fun _ => none, fun _ _ _ => true⟩
    ⟨fun _ => some (fun _ => some 5)⟩ "frank" 2001 [9, 8] 3
    CMD_GW_RELAY_CLIENT_MSG ⟨"frank", 1, [9, 8]⟩ rfl

/-- Claim C5 (confirmed): `VerifyToken` returns 2 when the token-store load
fails and 1 when the presented token differs from the stored credential, and
in both cases the gateway state — the whole session affinity table — is
returned unchanged. -/
theorem verifyToken_failures_leave_state (s2n : ServerID → NodeID)
    (gw : Gateway) (account tok : String) (rec : TokenRecord)
    (hMismatch : tok ≠ rec.Token) :
    VerifyToken s2n LoadResult.err gw account tok = (2, gw)
    ∧ VerifyToken s2n (LoadResult.ok rec) gw account tok = (1, gw) := by
  refine ⟨rfl, ?_⟩
  simp [VerifyToken, hMismatch]

/-- Claim C5 witness: a store failure and a mismatching token ("b" vs stored
"a") both leave the concrete table untouched. -/
theorem verifyToken_failures_leave_state_witness :
    VerifyToken (fun s => s) LoadResult.err ⟨fun _ => none⟩ "gina" "b"
      = (2, ⟨fun _ => none⟩)
    ∧ VerifyToken (fun s => s) (LoadResult.ok ⟨"a", [(2, 5)]⟩)
        ⟨fun _ => none⟩ "gina" "b" = (1, ⟨fun _ => none⟩) :=
  verifyToken_failures_leave_state (fun s => s) ⟨fun _ => none⟩ "gina" "b"
    ⟨"a", [(2, 5)]⟩ (by decide)

/-- Claim C6 (confirmed): after the successful-`VerifyToken` write of the
single allocation `{T ↦ sid}` the lookup for `T` yields `s2n sid`, and every
other service type reads absent (the write replaces the prior entry, it never
merges); after `OnLogout` every lookup for the account is absent; and removing
an account with no entry is a no-op on the whole state. -/
theorem affinity_assign_lookup_remove (s2n : ServerID → NodeID) (gw : Gateway)
    (account tok : String) (T : ServiceType) (sid : ServerID) :
    lookupAffinity
        (VerifyToken s2n (LoadResult.ok ⟨tok, [(T, sid)]⟩) gw account tok).2
        account T = some (s2n sid)
    ∧ (∀ U, U ≠ T →
        lookupAffinity
          (VerifyToken s2n (LoadResult.ok ⟨tok, [(T, sid)]⟩) gw account tok).2
          account U = none)
    ∧ (∀ U, lookupAffinity (OnLogout gw account) account U = none)
    ∧ (gw.allocServers account = none → OnLogout gw account = gw) := by
  refine ⟨?_, ?_, ?_, ?_⟩
  · simp [VerifyToken, lookupAffinity, buildAlloc]
  · intro U hU
    simp [VerifyToken, lookupAffinity, buildAlloc, hU]
  · intro U
    simp [OnLogout, lookupAffinity]
  · intro h
    cases gw with
    | mk f =>
      unfold OnLogout
      congr 1
      funext a
      by_cases ha : a = account
      · subst ha
        simpa using h.symm
      · simp [ha]

/-- Claim C6 witness: assigning `{2 ↦ 5}` to "hana" makes lookup of type 2
yield 5 and type 3 absent; logging out clears type 2; removing the absent
account "hana" from the empty table changes nothing. -/
theorem affinity_assign_lookup_remove_witness :
    lookupAffinity
      (VerifyToken (fun s => s) (LoadResult.ok ⟨"t", [(2, 5)]⟩)
        ⟨fun _ => none⟩ "hana" "t").2 "hana" 2 = some 5
    ∧ lookupAffinity
        (VerifyToken (fun s => s) (LoadResult.ok ⟨"t", [(2, 5)]⟩)
          ⟨fun _ => none⟩ "hana" "t").2 "hana" 3 = none
    ∧ lookupAffinity (OnLogout ⟨fun _ => none⟩ "hana") "hana" 2 = none
    ∧ OnLogout ⟨fun _ => none⟩ "hana" = ⟨fun _ => none⟩ := by
  have h := affinity_assign_lookup_remove (fun s => s) ⟨fun _ => none⟩
    "hana" "t" 2 5
  exact ⟨h.1, h.2.1 3 (by decide), h.2.2.1 2, h.2.2.2 rfl⟩

/-- Claim C3 (confirmed): a successful `VerifyToken` whose token record
allocates service type `T` to raw server `sid` (hence node `s2n sid`),
followed by `OnRecvFromClient` for the same account with a command decoding
to `T`, forwards the message to exactly the node the registry reports live
under `s2n sid`. -/
theorem verify_then_route_sticky (C : NodeTypeConsts) (cfg : Config)
    (env : Env) (gw : Gateway) (account tok : String) (T : ServiceType)
    (sid : ServerID) (s2n : ServerID → NodeID) (t : Node) (cmd : Nat)
    (data : List Nat)
    (hT : cmd / msgOffset cfg = T)
    (hValid : ¬ (C.nodeTypeSize ≤ T ∨ T ≤ C.gatewayType))
    (hLive : env.getNode (s2n sid) = some t) :
    (OnRecvFromClient C cfg env
        (VerifyToken s2n (LoadResult.ok ⟨tok, [(T, sid)]⟩) gw account tok).2
        account cmd data).done = true
    ∧ (OnRecvFromClient C cfg env
        (VerifyToken s2n (LoadResult.ok ⟨tok, [(T, sid)]⟩) gw account tok).2
        account cmd data).sent
      = some (t, CMD_GW_RELAY_CLIENT_MSG,
              ⟨account, cmd % msgOffset cfg, data⟩) := by
  subst hT
  constructor
  · simp [VerifyToken, OnRecvFromClient, resolveTarget, buildAlloc, hValid,
      hLive]
  · simp [VerifyToken, OnRecvFromClient, resolveTarget, buildAlloc, hValid,
      hLive]

/-- Claim C3 witness: verifying "ivan" with allocation `{2 ↦ 5}` and then
relaying command 2001 (service type 2) reaches node 42, the registry's live
handle for node id 5. -/
theorem verify_then_route_sticky_witness :
    2001 / msgOffset ⟨1000⟩ = 2
    ∧ (OnRecvFromClient ⟨1, 10⟩ ⟨1000⟩
        ⟨fun id => if id = 5 then some 42 else none, fun _ => none,
          fun _ _ _ => true⟩
        (VerifyToken (fun s => s) (LoadResult.ok ⟨"t", [(2, 5)]⟩)
          ⟨fun _ => none⟩ "ivan" "t").2 "ivan" 2001 [4]).sent
      = some (42, CMD_GW_RELAY_CLIENT_MSG, ⟨"ivan", 1, [4]⟩) := by
  have h := verify_then_route_sticky ⟨1, 10⟩ ⟨1000⟩
    ⟨fun id => if id = 5 then some 42 else none, fun _ => none,
      fun _ _ _ => true⟩
    ⟨fun _ => none⟩ "ivan" "t" 2 5 (fun s => s) 42 2001 [4]
    (by decide) (by decide) (by decide)
  exact ⟨by decide, by simpa [msgOffset] using h.2⟩

/-- Claim C10 (confirmed): `SendMsgToClientByRoleName` behaves exactly as
`SendMsgToClient` called with the empty-string account, for every role name,
command and message. -/
theorem sendByRoleName_eq_emptyAccount (ctx : SendCtx) (roleName : String)
    (cmd : Nat) (msg : ProtoMsg) :
    SendMsgToClientByRoleName ctx roleName cmd msg
      = SendMsgToClient ctx "" cmd msg := rfl

end GoXServer
